import Mathlib

/-!
Shallow embedding of the bootstrap logic of `src/src/App.tsx` (the einmal
application shell): the reset directive handler, the four concurrent
bootstrap loads (`checkVault`, `loadSettings`, `loadImages`, `loadFonts`),
the readiness gate, and the navigation subgraph selection.

Modelling notes.
* The external collaborator modules (`./vault`, `./secure-storage`,
  `./async-storage`, the asset and font preloaders, the biometric
  enrollment query) are not part of the given source tree; they are
  modelled from the spec's collaborator contracts (spec section 6) as
  operations on an explicit `Stores` record, each of which can fail.
* JavaScript `await` sequencing becomes explicit state passing in the
  `Except BootError` monad.  `Promise.all` joins are sequentialised: the
  three reset deletions touch pairwise disjoint fields of `Stores`, and
  the four bootstrap loads touch pairwise disjoint fields of `Stores`
  (`checkVault` only reads `vault`; `loadSettings` touches `credential`
  and reads `concealTokens`; the image and font loads touch no store),
  so the sequential composition agrees with every interleaving of the
  concurrent tasks on the observable results.  `Promise.all` rejects
  when any member rejects, which the `Except` short-circuit models.
* Each run also produces a trace of the external operations issued, in
  order, used to state the temporal and frame claims.
-/

namespace Einmal

/-- Error taxonomy of the spec (section 7): store access failures,
biometric enrollment query failures, asset load failures. -/
inductive BootError
  | storeAccess
  | enrollmentQuery
  | assetLoad
deriving DecidableEq, Repr

/-- External operations the bootstrap core issues, for traces. -/
inductive Op
  | deleteVault
  | removePassword
  | clearStorage
  | doesVaultExist
  | isEnrolled
  | getPassword
  | getConcealTokens
  | loadImages
  | loadFonts
deriving DecidableEq, Repr

/-- The persistent external stores, as observed by this core.
`vault` is the vault's presence (Vault Existence Service), `credential`
the optional opaque unlock secret (Secure Credential Store),
`concealTokens` the optional preference value (Key-Value Store).
The opaque payloads are represented by `Nat`. -/
structure Stores where
  vault : Bool
  credential : Option Nat
  concealTokens : Option Nat
deriving DecidableEq, Repr

/-- The per-launch environment: the configuration's reset directive, the
device's biometric enrollment state, and an outcome flag for every
fallible external operation (`true` = the call succeeds). -/
structure Env where
  shouldReset : Bool
  enrolled : Bool
  doesVaultExistOk : Bool
  isEnrolledOk : Bool
  getPasswordOk : Bool
  removePasswordOk : Bool
  getConcealTokensOk : Bool
  deleteVaultOk : Bool
  clearOk : Bool
  imagesOk : Bool
  fontsOk : Bool
deriving DecidableEq, Repr

/-- The settings snapshot `{ biometricUnlock, concealTokens }` built by
`loadSettings` (App.tsx lines 115-118). -/
structure Settings where
  biometricUnlock : Bool
  concealTokens : Bool
deriving DecidableEq, Repr

/-- Modelled from the spec: `doesVaultExist` of the `./vault` module
(Vault Existence Service, check: returns a bool). -/
def doesVaultExistOp (env : Env) (s : Stores) : Except BootError Bool :=
  if env.doesVaultExistOk then .ok s.vault else .error .storeAccess

/-- Modelled from the spec: `deleteVault` of the `./vault` module
(Vault Existence Service, delete: the vault becomes absent). -/
def deleteVaultOp (env : Env) (s : Stores) : Except BootError Stores :=
  if env.deleteVaultOk then .ok { s with vault := false }
  else .error .storeAccess

/-- Modelled from the spec: `secureStorage.getPassword` (Secure
Credential Store, get: returns the optional opaque credential). -/
def getPasswordOp (env : Env) (s : Stores) : Except BootError (Option Nat) :=
  if env.getPasswordOk then .ok s.credential else .error .storeAccess

/-- Modelled from the spec: `secureStorage.removePassword` (Secure
Credential Store, remove: idempotent deletion of the credential). -/
def removePasswordOp (env : Env) (s : Stores) : Except BootError Stores :=
  if env.removePasswordOk then .ok { s with credential := none }
  else .error .storeAccess

/-- Modelled from the spec: `storage.getConcealTokens` (Key-Value Store,
get: returns the optional stored value for the conceal-tokens key). -/
def getConcealTokensOp (env : Env) (s : Stores) :
    Except BootError (Option Nat) :=
  if env.getConcealTokensOk then .ok s.concealTokens
  else .error .storeAccess

/-- Modelled from the spec: `storage.clear` (Key-Value Store, clear:
every stored preference, in particular conceal-tokens, becomes absent). -/
def clearOp (env : Env) (s : Stores) : Except BootError Stores :=
  if env.clearOk then .ok { s with concealTokens := none }
  else .error .storeAccess

/-- Modelled from the spec: `LocalAuthentication.isEnrolledAsync`
(Biometric Enrollment Query). -/
def isEnrolledOp (env : Env) : Except BootError Bool :=
  if env.isEnrolledOk then .ok env.enrolled else .error .enrollmentQuery

/-- The reset directive handler (App.tsx lines 79-85): when
`configuration.shouldReset` is true, `Promise.all` of `deleteVault()`,
`secureStorage.removePassword()` and `storage.clear()`.  The three
deletions touch pairwise disjoint fields, so the join is sequentialised;
if any of them fails the join rejects. -/
def resetHandler (env : Env) (s : Stores) :
    Except BootError (Stores × List Op) :=
  if env.shouldReset then do
    let s1 ← deleteVaultOp env s
    let s2 ← removePasswordOp env s1
    let s3 ← clearOp env s2
    pure (s3, [Op.deleteVault, Op.removePassword, Op.clearStorage])
  else
    pure (s, [])

/-- `checkVault` (App.tsx lines 95-98): read the vault's existence; the
result is stored into the `vaultExists` component state. -/
def checkVault (env : Env) (s : Stores) : Except BootError Bool :=
  doesVaultExistOp env s

/-- `loadSettings` (App.tsx lines 100-121), the settings consistency
reconciler: query biometric enrollment; if not enrolled, delete the
stored credential; then derive `biometricUnlock` from the credential's
presence and `concealTokens` from the preference value's presence
(`Boolean(...)` coercion, presence semantics per the spec), and emit the
snapshot. -/
def loadSettings (env : Env) (s : Stores) :
    Except BootError (Settings × Stores × List Op) := do
  let areBiometricsEnrolled ← isEnrolledOp env
  let (s1, tr1) ←
    if areBiometricsEnrolled then
      pure (s, ([] : List Op))
    else do
      let s' ← removePasswordOp env s
      pure (s', [Op.removePassword])
  let pw ← getPasswordOp env s1
  let ct ← getConcealTokensOp env s1
  pure ({ biometricUnlock := pw.isSome, concealTokens := ct.isSome },
    s1, Op.isEnrolled :: (tr1 ++ [Op.getPassword, Op.getConcealTokens]))

/-- `loadImages` (App.tsx lines 123-125): opaque asset preload. -/
def loadImages (env : Env) : Except BootError Unit :=
  if env.imagesOk then .ok () else .error .assetLoad

/-- `loadFonts` (App.tsx lines 127-135): opaque font preload. -/
def loadFonts (env : Env) : Except BootError Unit :=
  if env.fontsOk then .ok () else .error .assetLoad

/-- The result of a completed `loadAssets`: the vault-existence result,
the emitted settings snapshot, the final store state, and the trace of
issued operations. -/
structure BootResult where
  vaultExists : Bool
  settings : Settings
  stores : Stores
  trace : List Op
deriving DecidableEq, Repr

/-- `loadAssets` (App.tsx lines 78-93): first the reset directive
handler runs to completion, then the `Promise.all` join of the four
bootstrap loads.  The four loads touch pairwise disjoint parts of the
stores, so the join is sequentialised on the post-reset state. -/
def loadAssets (env : Env) (s : Stores) : Except BootError BootResult := do
  let (s1, rtr) ← resetHandler env s
  let vaultExists ← checkVault env s1
  let (settings, s2, str) ← loadSettings env s1
  let _ ← loadImages env
  let _ ← loadFonts env
  pure { vaultExists := vaultExists, settings := settings, stores := s2,
         trace := rtr ++ (Op.doesVaultExist :: str)
           ++ [Op.loadImages, Op.loadFonts] }

/-- All the screens of the navigator (App.tsx lines 168-197). -/
inductive Screen
  | Home
  | Sorting
  | BarcodeScanner
  | Settings
  | Welcome
  | AuthenticationSetup
  | Authentication
deriving DecidableEq, Repr

/-- The PostVault subgraph: the screens mounted when the shared
`globalState.vault` flag is set (App.tsx lines 168-178). -/
def postVaultScreens : List Screen :=
  [Screen.Home, Screen.Sorting, Screen.BarcodeScanner, Screen.Settings]

/-- The PreVault subgraph: the screens mounted when the shared
`globalState.vault` flag is unset (App.tsx lines 179-197). -/
def preVaultScreens : List Screen :=
  [Screen.Welcome, Screen.AuthenticationSetup, Screen.Authentication]

/-- The screens mounted in the navigator for a given value of the
shared vault-unlocked flag (the conditional at App.tsx line 168). -/
def mountedScreens (vaultUnlocked : Bool) : List Screen :=
  if vaultUnlocked then postVaultScreens else preVaultScreens

/-- The `initialRouteName` selection (App.tsx lines 152-154). -/
def initialRouteName (vaultExists : Bool) : Screen :=
  if vaultExists then Screen.Authentication else Screen.Welcome

/-- What the `App` component hands to the rendering layer: either
nothing at all (the `return null` at App.tsx line 208), or the
navigation container with its initial route, its mounted screen set and
the settings snapshot given to `GlobalStateProvider`. -/
inductive Rendered
  | nothing
  | navigator (initialRoute : Screen) (screens : List Screen)
      (settings : Settings)
deriving DecidableEq, Repr

/-- The component state of `App` (App.tsx lines 66-68). -/
structure AppState where
  vaultExists : Bool
  initialSettings : Option Settings
  isReady : Bool
deriving DecidableEq, Repr

/-- One whole launch through `initialize` (App.tsx lines 70-76): when
`loadAssets` resolves, readiness flips and the splash screen is hidden;
when it rejects, the failure is uncaught, readiness stays false and the
splash screen is never dismissed. -/
structure SessionOutcome where
  state : AppState
  splashDismissed : Bool
  finalStores : Option Stores
deriving DecidableEq, Repr

/-- Run a launch: `initialize` over `loadAssets` (App.tsx lines 70-93 and
137-139). -/
def runSession (env : Env) (s : Stores) : SessionOutcome :=
  match loadAssets env s with
  | .ok r =>
      { state := { vaultExists := r.vaultExists,
                   initialSettings := some r.settings,
                   isReady := true },
        splashDismissed := true,
        finalStores := some r.stores }
  | .error _ =>
      { state := { vaultExists := false, initialSettings := none,
                   isReady := false },
        splashDismissed := false,
        finalStores := none }

/-- What `App` renders (App.tsx lines 141-209): `null` until `isReady`,
afterwards the navigator with the initial route chosen from
`vaultExists` and the subgraph chosen from the shared vault flag. -/
def renderApp (st : AppState) (vaultUnlocked : Bool) : Rendered :=
  if st.isReady then
    match st.initialSettings with
    | some settings =>
        Rendered.navigator (initialRouteName st.vaultExists)
          (mountedScreens vaultUnlocked) settings
    | none => Rendered.nothing
  else
    Rendered.nothing

/-- Whether a bootstrap task resolved (promise fulfilled) rather than
rejected. -/
def succeeds {α : Type} : Except BootError α → Bool
  | .ok _ => true
  | .error _ => false

/-- The readiness gate as a signal over session time: `doneTime` is the
instant the join of the four loads completes.  `setReady true` (App.tsx
line 74) runs only after `await loadAssets()` resolves, so the signal is
false before `doneTime` and whenever `loadAssets` rejects. -/
def readySignal (env : Env) (s : Stores) (doneTime : Nat) (t : Nat) : Bool :=
  succeeds (loadAssets env s) && decide (doneTime ≤ t)

end Einmal

namespace Einmal

/-! ## Helper lemmas -/

/-- A task resolves exactly when it produced an `ok` value. -/
lemma succeeds_iff {α : Type} (x : Except BootError α) :
    succeeds x = true ↔ ∃ a, x = .ok a := by
  cases x <;> simp [succeeds]

/-- Inversion of a successful `loadSettings` run. -/
lemma loadSettings_ok_inv (env : Env) (s : Stores) (st : Settings)
    (s' : Stores) (tr : List Op)
    (h : loadSettings env s = .ok (st, s', tr)) :
    env.isEnrolledOk = true ∧ env.getPasswordOk = true ∧
      env.getConcealTokensOk = true ∧
      st = { biometricUnlock := s'.credential.isSome,
             concealTokens := s'.concealTokens.isSome } ∧
      (env.enrolled = true →
        s' = s ∧ tr = [Op.isEnrolled, Op.getPassword, Op.getConcealTokens]) ∧
      (env.enrolled = false →
        env.removePasswordOk = true ∧ s' = { s with credential := none } ∧
          tr = [Op.isEnrolled, Op.removePassword, Op.getPassword,
                Op.getConcealTokens]) := by
  cases h1 : env.isEnrolledOk <;> cases h2 : env.enrolled <;>
    cases h3 : env.removePasswordOk <;> cases h4 : env.getPasswordOk <;>
    cases h5 : env.getConcealTokensOk <;>
    simp_all [loadSettings, isEnrolledOp, removePasswordOp, getPasswordOp,
      getConcealTokensOp, Bind.bind, Except.bind, Pure.pure, Except.pure] <;>
    (obtain ⟨ha, hb, hc⟩ := h; subst ha; subst hb; simp)

/-- When the reset directive is off, the reset handler is a no-op. -/
lemma resetHandler_no_directive (env : Env) (s : Stores)
    (h : env.shouldReset = false) : resetHandler env s = .ok (s, []) := by
  simp [resetHandler, h, Pure.pure, Except.pure]

/-- Inversion of a successful reset-directive run. -/
lemma resetHandler_ok_inv (env : Env) (s : Stores) (s1 : Stores)
    (rtr : List Op) (hdir : env.shouldReset = true)
    (h : resetHandler env s = .ok (s1, rtr)) :
    env.deleteVaultOk = true ∧ env.removePasswordOk = true ∧
      env.clearOk = true ∧
      s1 = { vault := false, credential := none, concealTokens := none } ∧
      rtr = [Op.deleteVault, Op.removePassword, Op.clearStorage] := by
  cases h1 : env.deleteVaultOk <;> cases h2 : env.removePasswordOk <;>
    cases h3 : env.clearOk <;>
    simp_all [resetHandler, deleteVaultOp, removePasswordOp, clearOp,
      Bind.bind, Except.bind, Pure.pure, Except.pure]

/-- Inversion of a successful `loadAssets` run into its five stages. -/
lemma loadAssets_ok_inv (env : Env) (s : Stores) (r : BootResult)
    (h : loadAssets env s = .ok r) :
    ∃ s1 rtr ve st s2 str,
      resetHandler env s = .ok (s1, rtr) ∧ checkVault env s1 = .ok ve ∧
      loadSettings env s1 = .ok (st, s2, str) ∧
      loadImages env = .ok () ∧ loadFonts env = .ok () ∧
      r = { vaultExists := ve, settings := st, stores := s2,
            trace := rtr ++ (Op.doesVaultExist :: str)
              ++ [Op.loadImages, Op.loadFonts] } := by
  simp only [loadAssets, Bind.bind, Except.bind, Pure.pure, Except.pure] at h
  rcases hr : resetHandler env s with e | ⟨s1, rtr⟩ <;> simp only [hr] at h
  · exact absurd h (by simp)
  rcases hv : checkVault env s1 with e | ve <;> simp only [hv] at h
  · exact absurd h (by simp)
  rcases hs : loadSettings env s1 with e | ⟨st, s2, str⟩ <;>
    simp only [hs] at h
  · exact absurd h (by simp)
  rcases hi : loadImages env with e | u <;> simp only [hi] at h
  · exact absurd h (by simp)
  rcases hf : loadFonts env with e | u2 <;> simp only [hf] at h
  · exact absurd h (by simp)
  refine ⟨s1, rtr, ve, st, s2, str, rfl, hv, hs, rfl, rfl, ?_⟩
  simp only [Except.ok.injEq] at h
  simp [← h]

/-- Composition: when every stage resolves, so does `loadAssets`. -/
lemma loadAssets_ok_of_stages (env : Env) (s : Stores) (s1 : Stores)
    (rtr : List Op) (ve : Bool) (st : Settings) (s2 : Stores) (str : List Op)
    (hr : resetHandler env s = .ok (s1, rtr))
    (hv : checkVault env s1 = .ok ve)
    (hs : loadSettings env s1 = .ok (st, s2, str))
    (hi : loadImages env = .ok ()) (hf : loadFonts env = .ok ()) :
    loadAssets env s =
      .ok { vaultExists := ve, settings := st, stores := s2,
            trace := rtr ++ (Op.doesVaultExist :: str)
              ++ [Op.loadImages, Op.loadFonts] } := by
  simp [loadAssets, Bind.bind, Except.bind, Pure.pure, Except.pure,
    hr, hv, hs, hi, hf]

end Einmal

namespace Einmal

/-! ## Concrete fixtures for witnesses -/

/-- A launch environment with no reset directive, biometrics enrolled,
and every external call succeeding. -/
def envAllOk : Env :=
  { shouldReset := false, enrolled := true, doesVaultExistOk := true,
    isEnrolledOk := true, getPasswordOk := true, removePasswordOk := true,
    getConcealTokensOk := true, deleteVaultOk := true, clearOk := true,
    imagesOk := true, fontsOk := true }

/-- Like `envAllOk` but with biometrics unenrolled. -/
def envUnenrolled : Env := { envAllOk with enrolled := false }

/-- Like `envAllOk` but with the reset directive set. -/
def envReset : Env := { envAllOk with shouldReset := true }

/-- Like `envAllOk` but the image preload fails. -/
def envImagesFail : Env := { envAllOk with imagesOk := false }

/-- A store state with a vault, a credential and a conceal-tokens value. -/
def storesFull : Stores :=
  { vault := true, credential := some 0, concealTokens := some 0 }

/-- The bootstrap result of `loadAssets envAllOk storesFull`. -/
def bootAllOk : BootResult :=
  { vaultExists := true,
    settings := { biometricUnlock := true, concealTokens := true },
    stores := storesFull,
    trace := [Op.doesVaultExist, Op.isEnrolled, Op.getPassword,
              Op.getConcealTokens, Op.loadImages, Op.loadFonts] }

/-- The bootstrap result of `loadAssets envUnenrolled storesFull`. -/
def bootUnenrolled : BootResult :=
  { vaultExists := true,
    settings := { biometricUnlock := false, concealTokens := true },
    stores := { vault := true, credential := none,
                concealTokens := some 0 },
    trace := [Op.doesVaultExist, Op.isEnrolled, Op.removePassword,
              Op.getPassword, Op.getConcealTokens, Op.loadImages,
              Op.loadFonts] }

/-- The bootstrap result of `loadAssets envReset storesFull`. -/
def bootReset : BootResult :=
  { vaultExists := false,
    settings := { biometricUnlock := false, concealTokens := false },
    stores := { vault := false, credential := none, concealTokens := none },
    trace := [Op.deleteVault, Op.removePassword, Op.clearStorage,
              Op.doesVaultExist, Op.isEnrolled, Op.getPassword,
              Op.getConcealTokens, Op.loadImages, Op.loadFonts] }

/-! ## The claims -/

/-- C1: For every launch whose bootstrap resolves, if the biometric
enrollment query returned false then the reconciler deleted the stored
credential before reading credential presence, so the final credential
store is empty and the emitted snapshot has `biometricUnlock = false`
even if a credential existed before this launch; conversely
`biometricUnlock = true` in the emitted snapshot implies enrollment was
observed true during that reconciliation. -/
theorem credential_absent_when_unenrolled (env : Env) (s : Stores)
    (r : BootResult) (h : loadAssets env s = .ok r) :
    (env.enrolled = false →
      r.stores.credential = none ∧ r.settings.biometricUnlock = false) ∧
    (r.settings.biometricUnlock = true → env.enrolled = true) := by
  obtain ⟨s1, rtr, ve, st, s2, str, hr, hv, hs, hi, hf, hreq⟩ :=
    loadAssets_ok_inv env s r h
  obtain ⟨-, -, -, hst, hen, hnen⟩ := loadSettings_ok_inv env s1 st s2 str hs
  subst hreq
  constructor
  · intro hne
    obtain ⟨-, hs2, -⟩ := hnen hne
    subst hs2
    simp [hst]
  · intro hbu
    cases he : env.enrolled
    · obtain ⟨-, hs2, -⟩ := hnen he
      subst hs2
      rw [hst] at hbu
      simp at hbu
    · rfl

theorem credential_absent_when_unenrolled_witness :
    bootUnenrolled.stores.credential = none ∧
    bootUnenrolled.settings.biometricUnlock = false :=
  (credential_absent_when_unenrolled envUnenrolled storesFull
    bootUnenrolled (by rfl)).1 (by rfl)

end Einmal

namespace Einmal

/-- C2: For every launch with the reset directive set whose bootstrap
resolves, the reset handler issues exactly the three delete/clear
operations (vault deletion, credential removal, preference-store clear),
and after bootstrap the vault is absent, the stored credential is absent
and the conceal-tokens preference is absent, regardless of the prior
state of the stores. -/
theorem reset_clears_all_stores (env : Env) (s : Stores) (r : BootResult)
    (hdir : env.shouldReset = true) (h : loadAssets env s = .ok r) :
    resetHandler env s =
      .ok ({ vault := false, credential := none, concealTokens := none },
        [Op.deleteVault, Op.removePassword, Op.clearStorage]) ∧
    r.stores.vault = false ∧ r.stores.credential = none ∧
    r.stores.concealTokens = none := by
  obtain ⟨s1, rtr, ve, st, s2, str, hr, hv, hs, hi, hf, hreq⟩ :=
    loadAssets_ok_inv env s r h
  obtain ⟨-, -, -, hs1, hrtr⟩ := resetHandler_ok_inv env s s1 rtr hdir hr
  subst hs1
  subst hrtr
  obtain ⟨-, -, -, -, hen, hnen⟩ := loadSettings_ok_inv env _ st s2 str hs
  have hs2 : s2 = { vault := false, credential := none, concealTokens := none } := by
    cases he : env.enrolled
    · obtain ⟨-, h2, -⟩ := hnen he
      rw [h2]
    · obtain ⟨h2, -⟩ := hen he
      rw [h2]
  subst hreq
  subst hs2
  exact ⟨hr, rfl, rfl, rfl⟩

theorem reset_clears_all_stores_witness :
    resetHandler envReset storesFull =
      .ok ({ vault := false, credential := none, concealTokens := none },
        [Op.deleteVault, Op.removePassword, Op.clearStorage]) ∧
    bootReset.stores.vault = false ∧ bootReset.stores.credential = none ∧
    bootReset.stores.concealTokens = none :=
  reset_clears_all_stores envReset storesFull bootReset (by rfl) (by rfl)

/-- C3: readiness has join semantics: the session is ready exactly when
`loadAssets` resolves, which (once the reset handler has resolved)
happens exactly when all four bootstrap loads resolve; and whenever
`loadAssets` rejects, readiness never becomes true and the splash screen
is never dismissed. -/
theorem readiness_join_semantics (env : Env) (s : Stores) :
    ((runSession env s).state.isReady = true ↔
      succeeds (loadAssets env s) = true) ∧
    (∀ s1 rtr, resetHandler env s = .ok (s1, rtr) →
      (succeeds (loadAssets env s) = true ↔
        succeeds (checkVault env s1) = true ∧
        succeeds (loadSettings env s1) = true ∧
        succeeds (loadImages env) = true ∧
        succeeds (loadFonts env) = true)) ∧
    (succeeds (loadAssets env s) = false →
      (runSession env s).state.isReady = false ∧
      (runSession env s).splashDismissed = false) := by
  refine ⟨?_, ?_, ?_⟩
  · rcases hl : loadAssets env s with e | r <;>
      simp [runSession, hl, succeeds]
  · intro s1 rtr hr
    constructor
    · intro hsu
      obtain ⟨r, hl⟩ := (succeeds_iff _).1 hsu
      obtain ⟨s1x, rtrx, ve, st, s2, str, hrx, hv, hs, hi, hf, -⟩ :=
        loadAssets_ok_inv env s r hl
      rw [hr] at hrx
      simp only [Except.ok.injEq, Prod.mk.injEq] at hrx
      obtain ⟨hseq, -⟩ := hrx
      subst hseq
      exact ⟨(succeeds_iff _).2 ⟨ve, hv⟩, (succeeds_iff _).2 ⟨(st, s2, str), hs⟩,
        (succeeds_iff _).2 ⟨(), hi⟩, (succeeds_iff _).2 ⟨(), hf⟩⟩
    · rintro ⟨h1, h2, h3, h4⟩
      obtain ⟨ve, hv⟩ := (succeeds_iff _).1 h1
      obtain ⟨⟨st, s2, str⟩, hs⟩ := (succeeds_iff _).1 h2
      obtain ⟨u1, hi⟩ := (succeeds_iff _).1 h3
      obtain ⟨u2, hf⟩ := (succeeds_iff _).1 h4
      cases u1
      cases u2
      rw [loadAssets_ok_of_stages env s s1 rtr ve st s2 str hr hv hs hi hf]
      rfl
  · intro hfail
    rcases hl : loadAssets env s with e | r
    · simp [runSession, hl]
    · rw [hl] at hfail
      simp [succeeds] at hfail

theorem readiness_join_semantics_witness :
    (runSession envImagesFail storesFull).state.isReady = false ∧
    (runSession envImagesFail storesFull).splashDismissed = false :=
  (readiness_join_semantics envImagesFail storesFull).2.2 (by rfl)

end Einmal

namespace Einmal

/-- C4: For every launch whose bootstrap resolves, the initial route is
`Authentication` exactly when the vault-existence check returned true
and `Welcome` exactly when it returned false; the rendered navigator
uses that route; and the choice is independent of the settings snapshot:
any other resolved launch agreeing on the vault check gets the same
route, whatever its snapshot. -/
theorem initial_route_iff_vault_presence (env : Env) (s : Stores)
    (r : BootResult) (g : Bool) (h : loadAssets env s = .ok r) :
    (initialRouteName r.vaultExists = Screen.Authentication ↔
      r.vaultExists = true) ∧
    (initialRouteName r.vaultExists = Screen.Welcome ↔
      r.vaultExists = false) ∧
    renderApp (runSession env s).state g =
      Rendered.navigator (initialRouteName r.vaultExists)
        (mountedScreens g) r.settings ∧
    (∀ (env2 : Env) (s2 : Stores) (r2 : BootResult),
      loadAssets env2 s2 = .ok r2 → r2.vaultExists = r.vaultExists →
      initialRouteName r2.vaultExists = initialRouteName r.vaultExists) := by
  refine ⟨?_, ?_, ?_, ?_⟩
  · cases hve : r.vaultExists <;> simp [initialRouteName]
  · cases hve : r.vaultExists <;> simp [initialRouteName]
  · simp [runSession, h, renderApp]
  · intro env2 s2 r2 h2 heq
    rw [heq]

theorem initial_route_iff_vault_presence_witness :
    initialRouteName bootAllOk.vaultExists = Screen.Authentication :=
  ((initial_route_iff_vault_presence envAllOk storesFull bootAllOk true
    (by rfl)).1).mpr (by rfl)

/-- C5: at every instant exactly one of the two navigation subgraphs is
mounted, selected by the shared vault-unlocked flag: the whole PostVault
set when the flag is true, the whole PreVault set when it is false, and
no screen belongs to both subgraphs, so the swap is always of the whole
subgraph and never a mixture. -/
theorem navigation_subgraph_exclusive :
    ∀ (vaultUnlocked : Bool) (scr : Screen),
      (mountedScreens vaultUnlocked = postVaultScreens ∨
        mountedScreens vaultUnlocked = preVaultScreens) ∧
      (scr ∈ mountedScreens vaultUnlocked ↔
        (vaultUnlocked = true ∧ scr ∈ postVaultScreens) ∨
        (vaultUnlocked = false ∧ scr ∈ preVaultScreens)) ∧
      ¬(scr ∈ preVaultScreens ∧ scr ∈ postVaultScreens) := by
  intro g scr
  cases g <;> cases scr <;>
    simp [mountedScreens, preVaultScreens, postVaultScreens]

theorem navigation_subgraph_exclusive_witness :
    (mountedScreens true = postVaultScreens ∨
      mountedScreens true = preVaultScreens) ∧
    (Screen.Home ∈ mountedScreens true ↔
      (true = true ∧ Screen.Home ∈ postVaultScreens) ∨
      (true = false ∧ Screen.Home ∈ preVaultScreens)) ∧
    ¬(Screen.Home ∈ preVaultScreens ∧ Screen.Home ∈ postVaultScreens) :=
  navigation_subgraph_exclusive true Screen.Home

/-- C6: for every reconciliation with biometrics enrolled and a
credential present beforehand, the reconciler leaves the credential
store unchanged, never issues a credential deletion, and the emitted
snapshot has `biometricUnlock = true`. -/
theorem enrolled_credential_untouched (env : Env) (s : Stores)
    (st : Settings) (s' : Stores) (tr : List Op)
    (henr : env.enrolled = true) (hcred : s.credential.isSome = true)
    (h : loadSettings env s = .ok (st, s', tr)) :
    s' = s ∧ st.biometricUnlock = true ∧ Op.removePassword ∉ tr := by
  obtain ⟨-, -, -, hst, hen, -⟩ := loadSettings_ok_inv env s st s' tr h
  obtain ⟨hs', htr⟩ := hen henr
  subst hs'
  subst htr
  refine ⟨rfl, ?_, by decide⟩
  rw [hst]
  exact hcred

theorem enrolled_credential_untouched_witness :
    storesFull = storesFull ∧
    (Settings.mk true true).biometricUnlock = true ∧
    Op.removePassword ∉
      [Op.isEnrolled, Op.getPassword, Op.getConcealTokens] :=
  enrolled_credential_untouched envAllOk storesFull
    (Settings.mk true true) storesFull
    [Op.isEnrolled, Op.getPassword, Op.getConcealTokens]
    (by rfl) (by rfl) (by rfl)

/-- C7: when the reset directive is false the reset handler performs no
operation and leaves the stores untouched; when it is true and the
bootstrap resolves, the three reset deletions are the first operations
of the launch trace, before any operation of the four bootstrap loads,
and no further vault deletion or store clear follows them. -/
theorem reset_precedes_loads (env : Env) (s : Stores) :
    (env.shouldReset = false → resetHandler env s = .ok (s, [])) ∧
    (env.shouldReset = true → ∀ r : BootResult, loadAssets env s = .ok r →
      ∃ ltr, r.trace =
          [Op.deleteVault, Op.removePassword, Op.clearStorage] ++ ltr ∧
        Op.deleteVault ∉ ltr ∧ Op.clearStorage ∉ ltr) := by
  constructor
  · exact resetHandler_no_directive env s
  · intro hdir r h
    obtain ⟨s1, rtr, ve, st, s2, str, hr, hv, hs, hi, hf, hreq⟩ :=
      loadAssets_ok_inv env s r h
    obtain ⟨-, -, -, hs1, hrtr⟩ := resetHandler_ok_inv env s s1 rtr hdir hr
    obtain ⟨-, -, -, -, hen, hnen⟩ := loadSettings_ok_inv env s1 st s2 str hs
    have hstr : str = [Op.isEnrolled, Op.getPassword, Op.getConcealTokens] ∨
        str = [Op.isEnrolled, Op.removePassword, Op.getPassword,
               Op.getConcealTokens] := by
      cases he : env.enrolled
      · exact Or.inr (hnen he).2.2
      · exact Or.inl (hen he).2
    subst hreq
    subst hrtr
    refine ⟨Op.doesVaultExist :: str ++ [Op.loadImages, Op.loadFonts],
      by simp, ?_, ?_⟩ <;> rcases hstr with hstr | hstr <;> subst hstr <;>
      decide

theorem reset_precedes_loads_witness :
    ∃ ltr, bootReset.trace =
        [Op.deleteVault, Op.removePassword, Op.clearStorage] ++ ltr ∧
      Op.deleteVault ∉ ltr ∧ Op.clearStorage ∉ ltr :=
  (reset_precedes_loads envReset storesFull).2 (by rfl) bootReset (by rfl)

end Einmal

namespace Einmal

/-- C8: within a session the readiness signal is monotonic: it is false
at launch (any positive completion instant), it never goes from true
back to false, and it has at most one false-to-true transition. -/
theorem readiness_monotone (env : Env) (s : Stores) (d : Nat) :
    (∀ t u : Nat, t ≤ u → readySignal env s d t = true →
      readySignal env s d u = true) ∧
    (∀ t u : Nat,
      readySignal env s d t = false → readySignal env s d (t + 1) = true →
      readySignal env s d u = false → readySignal env s d (u + 1) = true →
      t = u) ∧
    (0 < d → readySignal env s d 0 = false) := by
  refine ⟨?_, ?_, ?_⟩
  · intro t u htu ht
    cases hb : succeeds (loadAssets env s) <;>
      simp [readySignal, hb] at ht ⊢
    omega
  · intro t u ht0 ht1 hu0 hu1
    cases hb : succeeds (loadAssets env s) <;>
      simp [readySignal, hb] at ht0 ht1 hu0 hu1 ⊢
    omega
  · intro hd
    cases hb : succeeds (loadAssets env s) <;> simp [readySignal, hb]
    omega

theorem readiness_monotone_witness :
    readySignal envAllOk storesFull 2 5 = true :=
  (readiness_monotone envAllOk storesFull 2).1 3 5 (by decide) (by rfl)

/-- C9: for every reconciliation that resolves, the `concealTokens`
field of the emitted snapshot is true exactly when a value for the
conceal-tokens key exists in the preference store, which the
reconciliation leaves unchanged. -/
theorem conceal_tokens_presence_semantics (env : Env) (s : Stores)
    (st : Settings) (s' : Stores) (tr : List Op)
    (h : loadSettings env s = .ok (st, s', tr)) :
    (st.concealTokens = true ↔ s.concealTokens.isSome = true) ∧
    s'.concealTokens = s.concealTokens := by
  obtain ⟨-, -, -, hst, hen, hnen⟩ := loadSettings_ok_inv env s st s' tr h
  have hpres : s'.concealTokens = s.concealTokens := by
    cases he : env.enrolled
    · obtain ⟨-, h2, -⟩ := hnen he
      rw [h2]
    · obtain ⟨h2, -⟩ := hen he
      rw [h2]
  rw [hst]
  simp [hpres]

theorem conceal_tokens_presence_semantics_witness :
    ((Settings.mk true true).concealTokens = true ↔
      storesFull.concealTokens.isSome = true) ∧
    storesFull.concealTokens = storesFull.concealTokens :=
  conceal_tokens_presence_semantics envAllOk storesFull
    (Settings.mk true true) storesFull
    [Op.isEnrolled, Op.getPassword, Op.getConcealTokens] (by rfl)

/-- C10: before readiness, the `App` component renders nothing at all:
every app state with `isReady = false` renders `nothing`, and on a
launch whose bootstrap rejects, readiness stays false and the component
renders `nothing` forever — no navigator, no settings snapshot, no
initial route. -/
theorem renders_nothing_before_ready :
    (∀ (st : AppState) (g : Bool), st.isReady = false →
      renderApp st g = Rendered.nothing) ∧
    (∀ (env : Env) (s : Stores) (g : Bool),
      succeeds (loadAssets env s) = false →
      (runSession env s).state.isReady = false ∧
      renderApp (runSession env s).state g = Rendered.nothing) := by
  constructor
  · intro st g hst
    simp [renderApp, hst]
  · intro env s g hfail
    rcases hl : loadAssets env s with e | r
    · simp [runSession, hl, renderApp]
    · rw [hl] at hfail
      simp [succeeds] at hfail

theorem renders_nothing_before_ready_witness :
    renderApp (AppState.mk true none false) true = Rendered.nothing :=
  renders_nothing_before_ready.1 (AppState.mk true none false) true
    (by rfl)

end Einmal
